import Mathlib

/-!
Shallow embedding of the `system_monitoring` repository
(`gpu_watch.py`, the per-process GPU sampler, and `plot_gpu_usage.py`,
the CSV plotter), together with theorems settling the specification
claims about it.

External effects are made explicit: each sampling tick receives the
text the telemetry CLI would produce (`pmon` output lines, memory-query
rows, the uuid→index listing) and a `pid ↦ command line` function that
models the `ps` lookup (returning `""` on any failure, as `run_cmd`
does).  CSV files are modelled as lists of rows, each row a list of
string fields, i.e. the file after CSV-level (un)quoting.
-/

/-! ### Python string / number primitives used by both scripts -/

/-- Value of a nonempty all-decimal-digit character list; `none` otherwise. -/
def digitsNat : List Char → Option Nat
  | [] => none
  | cs =>
    if cs.all (·.isDigit) then
      some (cs.foldl (fun a c => 10 * a + (c.toNat - 48)) 0)
    else none

/-- Model of Python `int(s)` on the stripped strings this code feeds it:
an optional sign followed by at least one decimal digit; anything else
raises in Python, i.e. yields `none` here. -/
def parsePyInt (s : String) : Option Int :=
  match s.data with
  | [] => none
  | c :: rest =>
    if c = '-' then (digitsNat rest).map (fun n => -(n : Int))
    else if c = '+' then (digitsNat rest).map (fun n => (n : Int))
    else (digitsNat (c :: rest)).map (fun n => (n : Int))

/-- Function `parse_pct` from `get_pmon_snapshot`: `int(x)` wrapped in
try/except, so a malformed percentage becomes `none`. -/
def parse_pct (x : String) : Option Int :=
  parsePyInt x

/-- The whitespace characters Python treats as separators (ASCII). -/
def pyIsSpace (c : Char) : Bool :=
  [' ', '\t', '\n', '\r'].contains c || c == Char.ofNat 11 || c == Char.ofNat 12

/-- Worker for `pySplit`: accumulate the current word (reversed). -/
def splitWsGo (acc : List Char) : List Char → List (List Char)
  | [] => if acc.isEmpty then [] else [acc.reverse]
  | c :: rest =>
    if pyIsSpace c then
      if acc.isEmpty then splitWsGo [] rest else acc.reverse :: splitWsGo [] rest
    else splitWsGo (c :: acc) rest

/-- Model of Python `str.split()` (no argument): split on runs of
whitespace, dropping empty pieces. -/
def pySplit (s : String) : List String :=
  (splitWsGo [] s.data).map (fun cs => ⟨cs⟩)

/-- Model of Python `str.strip()`. -/
def pyStrip (s : String) : String :=
  ⟨((s.data.dropWhile pyIsSpace).reverse.dropWhile pyIsSpace).reverse⟩

/-- Python `" ".join(parts)`-style joining. -/
def joinWith (sep : List Char) : List (List Char) → List Char
  | [] => []
  | [x] => x
  | x :: y :: t => x ++ sep ++ joinWith sep (y :: t)

/-- Decimal digits of `n` (first argument is structural fuel, enough
whenever `fuel > n`). -/
def natDigitsAux : Nat → Nat → List Char
  | 0, _ => []
  | fuel + 1, n =>
    if n < 10 then [Char.ofNat (48 + n)]
    else natDigitsAux fuel (n / 10) ++ [Char.ofNat (48 + n % 10)]

/-- Model of Python `str(i)` for an `int`. -/
def intToStr (i : Int) : String :=
  match i with
  | .ofNat n => ⟨natDigitsAux (n + 1) n⟩
  | .negSucc m => ⟨'-' :: natDigitsAux (m + 2) (m + 1)⟩

/-- Model of Python `str.isdigit()` on ASCII text: nonempty and all
characters decimal digits. -/
def pyIsDigit (s : String) : Bool :=
  !s.isEmpty && s.data.all (·.isDigit)

/-- Test `startsWithList n h`: `n` is a prefix of `h`. -/
def startsWithList : List Char → List Char → Bool
  | [], _ => true
  | _ :: _, [] => false
  | a :: as, b :: bs => a == b && startsWithList as bs

/-- Test `containsList n h`: `n` occurs as a contiguous run inside `h`
(Python's substring containment, `n in h`). -/
def containsList : List Char → List Char → Bool
  | needle, [] => startsWithList needle []
  | needle, c :: t => startsWithList needle (c :: t) || containsList needle t

/-! ### `gpu_watch.py` — regex fallback machinery

`main` builds the `--match` matcher with
`re.compile(args.match)` and, when that raises `re.error`, with
`re.compile(re.escape(args.match))`.  Whether a pattern compiles, and
the search semantics of a successfully compiled genuine regex, are
facts about the external `re` engine; they enter the model as the
`compiles` flag and the `regexSem` function.  `re.escape` and the
search semantics of a fully-escaped (all-literal) pattern are modelled
concretely below, so the fallback branch is meaningful. -/

/-- The characters Python's `re.escape` backslash-escapes
(CPython's `_special_chars_map`): `()[]{}?*+-|^$\.&~#` and the ASCII
whitespace characters. -/
def isRegexSpecial (c : Char) : Bool :=
  ['(', ')', '[', ']', '?', '*', '+', '-', '|', '^', '$', '\\', '.', '&', '~', '#',
    ' ', '\t', '\n', '\r'].contains c
  || c == Char.ofNat 123 || c == Char.ofNat 125   -- the two brace characters
  || c == Char.ofNat 11 || c == Char.ofNat 12     -- vertical tab, form feed

/-- Model of Python `re.escape`: prefix every special character with a
backslash. -/
def pyRegexEscape (s : String) : String :=
  ⟨(s.data.map (fun c => if isRegexSpecial c then ['\\', c] else [c])).flatten⟩

/-- Read a regex pattern that consists only of literal atoms (plain
characters and backslash-escaped characters — the image of
`re.escape`) as the character sequence it denotes; `none` on a
trailing lone backslash. -/
def lexAtoms : List Char → Option (List Char)
  | [] => some []
  | c :: rest =>
    if c = '\\' then
      match rest with
      | [] => none
      | d :: rest2 => (lexAtoms rest2).map (d :: ·)
    else (lexAtoms rest).map (c :: ·)

/-- Search semantics of an all-literal regex pattern (the image of
`re.escape`): the denoted character sequence matches at some position,
i.e. substring containment. -/
def regexSearchLiteral (pat : String) (s : String) : Bool :=
  match lexAtoms pat.data with
  | some atoms => containsList atoms s.data
  | none => false

/-- A compiled matcher: only its `search` behaviour is observable. -/
structure Matcher where
  search : String → Bool

/-- Matcher construction in `main`: if the pattern compiles as a regex,
use the regex engine's search; on `re.error`, compile the escaped
pattern instead (`re.compile(re.escape(args.match))`). -/
def buildMatcher (pat : String) (compiles : Bool) (regexSem : String → Bool) : Matcher :=
  if compiles then { search := regexSem }
  else { search := fun cmd => regexSearchLiteral (pyRegexEscape pat) cmd }

/-- Function `match_pid` from `gpu_watch.py`: an exact pid target wins; with no
matcher everything matches; otherwise search the live command line
(`cmdOf` models `get_cmd_for_pid`, which returns `""` on failure). -/
def match_pid (pid : Int) (matcher : Option Matcher) (pid_target : Option Int)
    (cmdOf : Int → String) : Bool :=
  match pid_target with
  | some t => pid == t
  | none =>
    match matcher with
    | none => true
    | some m => m.search (cmdOf pid)

/-! ### `gpu_watch.py` — pmon snapshot parsing and the sampling tick -/

/-- One element of `get_pmon_snapshot`'s result: keys
`gpu, pid, sm, mem, cmd`, with `sm`/`mem` already passed through
`parse_pct`. -/
structure PmonRow where
  gpu : String
  pid : String
  sm : Option Int
  mem : Option Int
  cmd : String
deriving DecidableEq, Repr

/-- Function `get_pmon_snapshot`, applied to the lines of the external
`nvidia-smi pmon -c 1 -s um` output (Python iterates
`out.splitlines()`). -/
def get_pmon_snapshot (outLines : List String) : List PmonRow :=
  outLines.filterMap fun rawLine =>
    let line := pyStrip rawLine
    if line = "" then none
    else if startsWithList ['#'] line.data then none
    else
      let parts := pySplit line
      if parts.length < 8 then none
      else
        let gpu := parts.getD 0 ""
        let pid := parts.getD 1 ""
        let sm := parts.getD 3 ""
        let mem := parts.getD 4 ""
        let cmd : String := ⟨joinWith [' '] ((parts.drop 7).map (·.data))⟩
        if pid = "-" then none
        else if ¬ pyIsDigit pid then none
        else some { gpu := gpu, pid := pid, sm := parse_pct sm, mem := parse_pct mem, cmd := cmd }

/-- The per-pid record `main` stores in `pmon_by_pid`. -/
structure PmonInfo where
  gpu : String
  sm : Option Int
  mem : Option Int
  cmd : String
deriving DecidableEq, Repr

/-- Python dict lookup for a dict built by iterated assignment:
the **last** binding of a key wins. -/
def dictLast {α β : Type} [BEq α] (l : List (α × β)) (k : α) : Option β :=
  ((l.filter (fun p => p.1 == k)).getLast?).map (·.2)

/-- Dict `pmon_by_pid` from `main`: key each snapshot row by `int(r["pid"])`
(always a digit string here, by `get_pmon_snapshot`'s `isdigit` check). -/
def pmon_by_pid (rows : List PmonRow) : List (Int × PmonInfo) :=
  rows.map fun r =>
    ((parsePyInt r.pid).getD 0, { gpu := r.gpu, sm := r.sm, mem := r.mem, cmd := r.cmd })

/-- The external world of one sampling tick: the timestamp taken at
tick start, what `get_uuid_to_index` would return if queried during
this tick, the parsed memory-query rows `(pid, gpu_uuid, used_mib)`,
the raw `pmon` output lines, and the `ps` command-line lookup. -/
structure TickEnv where
  ts : String
  uuidIndexNow : List (String × String)
  mem_rows : List (String × String × String)
  pmon_out : List String
  cmdOf : Int → String

/-- One emitted CSV row (`writer.writerow` argument), with the two
optional percentages already rendered the way `csv` renders them:
the integer's decimal string, or `""` for `None`. -/
structure OutRow where
  timestamp : String
  gpu_index : String
  pid : Int
  cmd : String
  gpu_mem_mib : String
  sm_util_pct : String
  mem_util_pct : String
deriving DecidableEq, Repr

/-- How `writerow` renders `sm_util if sm_util is not None else ""`. -/
def optPctField : Option Int → String
  | none => ""
  | some v => intToStr v

/-- The body of `main`'s per-memory-row loop: skip the row if the pid
does not parse as an int or fails the filter; otherwise build the CSV
row with the `ps`-preferred command line, the uuid-mapping-preferred
device index, and the snapshot's percentages. -/
def emitOne (uuid_to_index : List (String × String)) (pmonMap : List (Int × PmonInfo))
    (matcher : Option Matcher) (pid_target : Option Int) (cmdOf : Int → String)
    (ts : String) (mr : String × String × String) : Option OutRow :=
  match parsePyInt mr.1 with
  | none => none
  | some pid =>
    if match_pid pid matcher pid_target cmdOf then
      let info := dictLast pmonMap pid
      let psCmd := cmdOf pid
      let cmd := if psCmd ≠ "" then psCmd else
        match info with
        | some i => i.cmd
        | none => ""
      let hint := match info with
        | some i => i.gpu
        | none => ""
      let gpu_index := match dictLast uuid_to_index mr.2.1 with
        | some v => v
        | none => hint
      some { timestamp := ts, gpu_index := gpu_index, pid := pid, cmd := cmd,
             gpu_mem_mib := mr.2.2,
             sm_util_pct := optPctField (info.bind (·.sm)),
             mem_util_pct := optPctField (info.bind (·.mem)) }
    else none

/-- One sampling tick of `main`'s `while True` loop: build
`pmon_by_pid` from this tick's snapshot, then emit one row per
surviving memory-query row, in order. -/
def tickRows (uuid_to_index : List (String × String)) (matcher : Option Matcher)
    (pid_target : Option Int) (env : TickEnv) : List OutRow :=
  let pmonMap := pmon_by_pid (get_pmon_snapshot env.pmon_out)
  env.mem_rows.filterMap (emitOne uuid_to_index pmonMap matcher pid_target env.cmdOf env.ts)

/-- The external world of a whole (finite prefix of a) run: the
uuid→index mapping returned by the single `get_uuid_to_index()` call
at startup (line 136, before the loop), and one `TickEnv` per tick. -/
structure RunEnv where
  startupUuidIndex : List (String × String)
  ticks : List TickEnv

/-- The sampling loop of `main`: every tick is evaluated against the
startup `uuid_to_index`; the mapping is never re-queried inside the
loop. -/
def runSampler (matcher : Option Matcher) (pid_target : Option Int) (env : RunEnv) :
    List (List OutRow) :=
  env.ticks.map (tickRows env.startupUuidIndex matcher pid_target)

/-- The CSV header row `main` writes. -/
def csvHeader : List String :=
  ["timestamp", "gpu_index", "pid", "cmd", "gpu_mem_mib", "sm_util_pct", "mem_util_pct"]

/-- Output-file setup in `main`: `file_exists = os.path.exists(...)`,
then `open(out_path, "a")` — append mode, which keeps a pre-existing
file's contents and creates an empty file otherwise — then a header
row is written iff `not file_exists or not args.append`.  The result
is the file's row list after setup. -/
def initCsvFile (existing : Option (List (List String))) (append : Bool) :
    List (List String) :=
  let contents := match existing with
    | some c => c
    | none => []
  if existing.isNone || !append then contents ++ [csvHeader] else contents

/-! ### More Python string primitives -/

/-- Model of Python `str.lower()` on ASCII text. -/
def pyLower (s : String) : String :=
  ⟨s.data.map (fun c => if 'A' ≤ c ∧ c ≤ 'Z' then Char.ofNat (c.toNat + 32) else c)⟩

/-- Plain numeral value of a digit list (`0` for `[]`); callers check
digit-ness separately. -/
def natVal (cs : List Char) : Nat :=
  cs.foldl (fun a c => 10 * a + (c.toNat - 48)) 0

/-- An exact decimal number `mant / 10 ^ exp`: the values of this
repository's CSV columns, on which Python float arithmetic is exact.
(The representation keeps the decimal's scale, so arithmetic is plain
integer arithmetic; `toRat` below gives the denotation.) -/
structure PyFloat where
  mant : Int
  exp : Nat
deriving DecidableEq, Repr

/-- Addition at the common scale. -/
def PyFloat.add (a b : PyFloat) : PyFloat :=
  if a.exp ≤ b.exp then ⟨a.mant * (10 : Int) ^ (b.exp - a.exp) + b.mant, b.exp⟩
  else ⟨a.mant + b.mant * (10 : Int) ^ (a.exp - b.exp), a.exp⟩

instance : Add PyFloat := ⟨PyFloat.add⟩

/-- Negation. -/
def PyFloat.neg (a : PyFloat) : PyFloat := ⟨-a.mant, a.exp⟩

/-- The rational a `PyFloat` denotes. -/
def PyFloat.toRat (a : PyFloat) : Rat := (a.mant : Rat) / (10 : Rat) ^ a.exp

/-- The zero used for `defaultdict(float)` defaults and `0.0`. -/
def pyZero : PyFloat := ⟨0, 0⟩

/-- Magnitude part of Python `float(s)`: digits with an optional
decimal point (`"4096"`, `"12.5"`, `".5"`, `"5."`); scientific
notation and inf/nan are not produced by this repository's data and
are left out of the model. -/
def pyFloatMag (cs : List Char) : Option PyFloat :=
  let ip := cs.span (fun c => c ≠ '.')
  match ip.2 with
  | [] => (digitsNat ip.1).map (fun n => ⟨(n : Int), 0⟩)
  | _ :: fpart =>
    if ip.1.all (·.isDigit) ∧ fpart.all (·.isDigit) ∧ (ip.1 ≠ [] ∨ fpart ≠ []) then
      some ⟨(natVal ip.1 : Int) * (10 : Int) ^ fpart.length + (natVal fpart : Int), fpart.length⟩
    else none

/-- Model of Python `float(s)` on the decimal strings this code feeds
it: optional sign, then digits with an optional decimal point. -/
def pyFloat? (s : String) : Option PyFloat :=
  match s.data with
  | '-' :: rest => (pyFloatMag rest).map PyFloat.neg
  | '+' :: rest => pyFloatMag rest
  | cs => pyFloatMag cs

/-! ### `plot_gpu_usage.py` — timestamps -/

/-- A parsed wall-clock instant (Python `datetime` at second
precision). -/
structure PDT where
  year : Nat
  month : Nat
  day : Nat
  hour : Nat
  minute : Nat
  second : Nat
deriving DecidableEq, Repr

/-- Mixed-radix key; on range-validated values it orders exactly like
`datetime` comparison (field-lexicographic). -/
def pdtKey (t : PDT) : Nat :=
  ((((t.year * 13 + t.month) * 32 + t.day) * 24 + t.hour) * 60 + t.minute) * 60 + t.second

/-- Two-digit number. -/
def dig2 (a b : Char) : Option Nat :=
  if a.isDigit ∧ b.isDigit then some ((a.toNat - 48) * 10 + (b.toNat - 48)) else none

/-- Four-digit number. -/
def dig4 (a b c d : Char) : Option Nat :=
  match dig2 a b, dig2 c d with
  | some x, some y => some (x * 100 + y)
  | _, _ => none

/-- Range validation performed by `datetime` construction (day range
approximated as 1–31 for every month). -/
def mkPDT (y mo d h mi s : Nat) : Option PDT :=
  if 1 ≤ mo ∧ mo ≤ 12 ∧ 1 ≤ d ∧ d ≤ 31 ∧ h ≤ 23 ∧ mi ≤ 59 ∧ s ≤ 59 then
    some ⟨y, mo, d, h, mi, s⟩
  else none

/-- Function `parse_time` from `plot_gpu_usage.py`: `datetime.fromisoformat`
with `strptime` fallbacks, modelled on the formats those accept at
second precision — `YYYY-MM-DD` alone, `YYYY-MM-DD` + `T` or space +
`HH:MM:SS`, and `YYYY/MM/DD HH:MM:SS`; `none` models the exception on
anything else. -/
def parse_time (s : String) : Option PDT :=
  match s.data with
  | [y1, y2, y3, y4, p1, m1, m2, p2, d1, d2] =>
    if p1 = '-' ∧ p2 = '-' then
      match dig4 y1 y2 y3 y4, dig2 m1 m2, dig2 d1 d2 with
      | some y, some mo, some d => mkPDT y mo d 0 0 0
      | _, _, _ => none
    else none
  | [y1, y2, y3, y4, p1, m1, m2, p2, d1, d2, p3, h1, h2, q1, i1, i2, q2, s1, s2] =>
    if ((p1 = '-' ∧ p2 = '-' ∧ (p3 = 'T' ∨ p3 = ' ')) ∨ (p1 = '/' ∧ p2 = '/' ∧ p3 = ' '))
        ∧ q1 = ':' ∧ q2 = ':' then
      match dig4 y1 y2 y3 y4, dig2 m1 m2, dig2 d1 d2, dig2 h1 h2, dig2 i1 i2, dig2 s1 s2 with
      | some y, some mo, some d, some h, some mi, some sec => mkPDT y mo d h mi sec
      | _, _, _, _, _, _ => none
    else none
  | _ => none

/-- The default used after the all-parseable check (never observable). -/
def pdtOf (ts : String) : PDT :=
  (parse_time ts).getD ⟨0, 0, 0, 0, 0, 0⟩

/-! ### `plot_gpu_usage.py` — loaders -/

/-- CSV files are modelled after CSV-level decoding: a list of rows,
each a list of string fields.  `dictGet hdr row k` is
`csv.DictReader` field access `row.get(k)`: pair header names with
fields (extra fields ignored, missing fields absent) and return the
last binding of `k` (later duplicate header names shadow earlier
ones, as in `dict(zip(...))`). -/
def dictGet (hdr row : List String) (k : String) : Option String :=
  ((hdr.zip row).filter (fun p => p.1 == k)).getLast?.map (·.2)

/-- Python `defaultdict(float)` accumulation `d[k] += v`: update the existing
binding in place, or append a fresh one (Python dicts keep first-insertion
order). -/
def bump (k : String) (v : PyFloat) : List (String × PyFloat) → List (String × PyFloat)
  | [] => [(k, v)]
  | (k', v') :: t => if k' == k then (k', v' + v) :: t else (k', v') :: bump k v t

/-- Nested accumulation `d[ts][gpu] += v` for
`defaultdict(lambda: defaultdict(float))`. -/
def bumpNested (ts gpu : String) (v : PyFloat) :
    List (String × List (String × PyFloat)) → List (String × List (String × PyFloat))
  | [] => [(ts, [(gpu, v)])]
  | (k', m) :: t => if k' == ts then (k', bump gpu v m) :: t else (k', m) :: bumpNested ts gpu v t

/-- Dict lookup on an accumulator built by `bump` (keys are unique, so
first match is the binding). -/
def alistFind {β : Type} (l : List (String × β)) (k : String) : Option β :=
  (l.find? (fun p => p.1 == k)).map (·.2)

/-- The contribution one data row makes in
`load_series_from_gpu_watch`'s reading loop: `none` when the row is
skipped (missing/empty timestamp, missing/empty/unparseable
`gpu_mem_mib`), otherwise the timestamp string, the float value, and
the stripped `gpu_index` label. -/
def richContrib (hdr row : List String) : Option (String × PyFloat × String) :=
  match dictGet hdr row "timestamp" with
  | none => none
  | some ts =>
    if ts = "" then none
    else
      match dictGet hdr row "gpu_mem_mib" with
      | none => none
      | some mem =>
        if mem = "" then none
        else
          match pyFloat? mem with
          | none => none
          | some v => some (ts, v, pyStrip ((dictGet hdr row "gpu_index").getD ""))

/-- The reading loop of `load_series_from_gpu_watch`: fold the data
rows into `by_ts_total` and `by_ts_gpu` (rows with an empty stripped
`gpu_index` contribute to the total only). -/
def richAccum (file : List (List String)) :
    List (String × PyFloat) × List (String × List (String × PyFloat)) :=
  (file.tail).foldl
    (fun acc row =>
      match richContrib (file.headD []) row with
      | none => acc
      | some (ts, v, gpu) =>
        (bump ts v acc.1, if gpu = "" then acc.2 else bumpNested ts gpu v acc.2))
    ([], [])

/-- Code-point comparison of strings (Python string `<=`). -/
def charListLe : List Char → List Char → Bool
  | [], _ => true
  | _ :: _, [] => false
  | a :: as, b :: bs =>
    if a.toNat < b.toNat then true
    else if b.toNat < a.toNat then false
    else charListLe as bs

/-- The `sorted(all_gpus, key=lambda x: (x == "", x))` order: empty
label last, otherwise code-point order. -/
def gpuLabelLe (a b : String) : Bool :=
  if (a == "") == (b == "") then charListLe a.data b.data else b == ""

/-- Python `set` contents as a deduplicated list (order irrelevant: it
is always sorted afterwards). -/
def dedupStrings (l : List String) : List String :=
  l.foldl (fun acc s => if acc.contains s then acc else acc ++ [s]) []

/-- The `sorted(..., key=parse_time)` comparison: parsed-time order. -/
def timeLe (a b : String) : Prop :=
  pdtKey (pdtOf a) ≤ pdtKey (pdtOf b)

instance : DecidableRel timeLe :=
  fun a b => Nat.decLe (pdtKey (pdtOf a)) (pdtKey (pdtOf b))

instance : IsTotal String timeLe :=
  ⟨fun a b => Nat.le_total (pdtKey (pdtOf a)) (pdtKey (pdtOf b))⟩

instance : IsTrans String timeLe :=
  ⟨fun _ _ _ => Nat.le_trans⟩

/-- Python `sorted(keys, key=parse_time)`: Python's stable sort, modelled by
insertion sort (stable) over the parsed-time key. -/
def sortTimes (keys : List String) : List String :=
  keys.insertionSort timeLe

/-- The plotter's fatal error classes. -/
inductive PlotError where
  | unrecognizedHeader
  | badTimestamp
deriving DecidableEq, Repr

/-- A map from series name to its time-ordered points, in dict
iteration order. -/
abbrev SeriesMap : Type := List (String × List (PDT × PyFloat))

/-- The timestamp keys of `by_ts_total`, in first-insertion order. -/
def richTimes (file : List (List String)) : List String :=
  (richAccum file).1.map (fun x => x.1)

/-- Definition `times_sorted` from `load_series_from_gpu_watch`. -/
def richTimesSorted (file : List (List String)) : List String :=
  sortTimes (richTimes file)

/-- The `"Total"` series points: one point per distinct timestamp,
value `by_ts_total[ts]`. -/
def totalPointsOf (file : List (List String)) : List (PDT × PyFloat) :=
  (richTimesSorted file).map (fun ts =>
    (pdtOf ts, (alistFind (richAccum file).1 ts).getD pyZero))

/-- Python `sorted(all_gpus, ...)`: the distinct device labels seen in
`by_ts_gpu`, sorted with the empty label last. -/
def gpusSortedOf (file : List (List String)) : List String :=
  (dedupStrings (((richAccum file).2.map (fun p => p.2.map (fun x => x.1))).flatten)).insertionSort
    (fun a b => gpuLabelLe a b = true)

/-- One device's series points: `by_ts_gpu.get(ts, {}).get(gpu, 0.0)`
at every distinct timestamp. -/
def gpuPointsOf (file : List (List String)) (g : String) : List (PDT × PyFloat) :=
  (richTimesSorted file).map (fun ts =>
    (pdtOf ts, ((alistFind (richAccum file).2 ts).bind (fun m => alistFind m g)).getD pyZero))

/-- Function `load_series_from_gpu_watch`: accumulate, then (attempt to) sort
the timestamp keys by parsed time — an unparseable timestamp raises,
modelled as `.error .badTimestamp` — and build either the per-GPU
series (devices sorted by label, one point per timestamp with `0.0`
default) or the single `"Total"` series. -/
def load_series_from_gpu_watch (file : List (List String)) (perGpu : Bool) :
    Except PlotError (SeriesMap × SeriesMap × SeriesMap) :=
  if (richTimes file).all (fun ts => (parse_time ts).isSome) then
    if perGpu then
      .ok ((gpusSortedOf file).map (fun g => ("GPU " ++ g, gpuPointsOf file g)), [], [])
    else
      .ok ([("Total", totalPointsOf file)], [], [])
  else .error .badTimestamp

/-- One row's contribution to one of `load_series_from_mem_only`'s
three series: the row's timestamp and the named column, when both are
present, nonempty and parseable (any exception is swallowed by the
per-append `try`/`except`). -/
def memOnlyContrib (hdr row : List String) (col : String) : Option (PDT × PyFloat) :=
  match dictGet hdr row "timestamp", dictGet hdr row col with
  | some ts, some v =>
    if ts ≠ "" ∧ v ≠ "" then
      match parse_time ts, pyFloat? v with
      | some t, some q => some (t, q)
      | _, _ => none
    else none
  | _, _ => none

/-- Sort a point list by time (`sort(key=lambda x: x[0])`, stable). -/
def sortPoints (pts : List (PDT × PyFloat)) : List (PDT × PyFloat) :=
  pts.insertionSort (fun a b => pdtKey a.1 ≤ pdtKey b.1)

/-- Function `load_series_from_mem_only`: three independent series from the
`used_mib`, `sys_used_mib` and `cpu_pct` columns, each sorted by time;
the RAM and CPU maps are included only when nonempty, the GPU map
always carries `"Total"`. -/
def load_series_from_mem_only (file : List (List String)) :
    SeriesMap × SeriesMap × SeriesMap :=
  let hdr := file.headD []
  let gpu := sortPoints ((file.tail).filterMap (fun row => memOnlyContrib hdr row "used_mib"))
  let ram := sortPoints ((file.tail).filterMap (fun row => memOnlyContrib hdr row "sys_used_mib"))
  let cpu := sortPoints ((file.tail).filterMap (fun row => memOnlyContrib hdr row "cpu_pct"))
  ([("Total", gpu)],
   if ram.isEmpty then [] else [("System", ram)],
   if cpu.isEmpty then [] else [("CPU %", cpu)])

/-- Function `auto_loader`: peek the first row; an empty file (the
`StopIteration` branch) yields an empty `"Total"` series; otherwise
dispatch on the stripped, lowercased header — `gpu_mem_mib` means the
rich schema, `used_mib` the minimal one, anything else is the
unrecognized-format error. -/
def auto_loader (file : List (List String)) (perGpu : Bool) :
    Except PlotError (SeriesMap × SeriesMap × SeriesMap) :=
  match file.head? with
  | none => .ok ([("Total", [])], [], [])
  | some header =>
    let header_lc := header.map (fun h => pyLower (pyStrip h))
    if header_lc.contains "gpu_mem_mib" then load_series_from_gpu_watch file perGpu
    else if header_lc.contains "used_mib" then .ok (load_series_from_mem_only file)
    else .error .unrecognizedHeader

/-- What a `plot_gpu_usage.py` invocation does, observably. -/
inductive PlotOutcome where
  | rendered
  | noMatplotlibExit
  | noDataExit
  | loadErrorExit (e : PlotError)
deriving DecidableEq, Repr

/-- The exit code each outcome carries (`None` for a successful
render). -/
def exitCodeOf : PlotOutcome → Option Nat
  | .rendered => none
  | .noMatplotlibExit => some 2
  | .noDataExit => some 1
  | .loadErrorExit _ => some 1

/-- Flag `any_points` of `do_plot`: it is computed from the GPU series
map alone (the loop over `gpu_series_map`). -/
def anyGpuPoints (gpuMap : SeriesMap) : Bool :=
  gpuMap.any (fun p => !p.2.isEmpty)

/-- Function `do_plot`: fail with exit 2 if `matplotlib` cannot be imported;
print `"No data points to plot."` and exit 1 when the GPU panel has no
points; otherwise render (the RAM and CPU panels fall back to their
"no data" placeholders and never abort). -/
def do_plot (gpuMap ramMap cpuMap : SeriesMap) (plotCpu mplOk : Bool) : PlotOutcome :=
  if !mplOk then .noMatplotlibExit
  else if anyGpuPoints gpuMap then .rendered
  else .noDataExit

/-- The plotter's `main` after the file-existence check: load (any
loader exception becomes `"Failed to read CSV"`, exit 1), then plot. -/
def plotter_main (file : List (List String)) (perGpu plotCpu mplOk : Bool) : PlotOutcome :=
  match auto_loader file perGpu with
  | .error e => .loadErrorExit e
  | .ok (g, r, c) => do_plot g r c plotCpu mplOk

/-! ### Derived views and concrete inputs used by the claims -/

/-- The surviving contributions of a rich-schema file, in row order:
what `load_series_from_gpu_watch`'s reading loop folds over. -/
def richRowsOf (file : List (List String)) : List (String × PyFloat × String) :=
  (file.tail).filterMap (richContrib (file.headD []))

/-- Left-fold sum of decimal values (the order in which the reading
loop accumulates them). -/
def pySum (l : List PyFloat) : PyFloat :=
  l.foldl (· + ·) pyZero

/-- Lookup in the nested per-timestamp/per-device accumulator. -/
def alistFind2 (m : List (String × List (String × PyFloat))) (ts g : String) : Option PyFloat :=
  (alistFind m ts).bind (fun inner => alistFind inner g)

/-- One accumulation step viewed on an optional running value. -/
def optAdd (v : Option PyFloat) (x : PyFloat) : Option PyFloat :=
  match v with
  | some y => some (y + x)
  | none => some x

/-- The two-row rich-schema CSV of the aggregation scenario. -/
def exRichFile : List (List String) :=
  [["timestamp", "gpu_index", "pid", "cmd", "gpu_mem_mib", "sm_util_pct", "mem_util_pct"],
   ["2024-01-01T00:00:00", "gpu0", "100", "python train.py", "4096", "80", "60"],
   ["2024-01-01T00:00:00", "gpu1", "200", "python eval.py", "2048", "10", "5"]]

/-- The scenario's single timestamp, parsed. -/
def exT1 : PDT := ⟨2024, 1, 1, 0, 0, 0⟩

/-- A minimal-schema CSV whose only data row has an empty `used_mib`
but a present `sys_used_mib`: the system-memory panel gets a point
while the GPU panel gets none. -/
def c3File : List (List String) :=
  [["timestamp", "used_mib", "sys_used_mib"],
   ["2024-01-01T00:00:00", "", "1024"]]

/-- A tick whose memory listing names pid 100 twice (one entry per
device, as the memory query reports a process computing on two GPUs). -/
def c1Env : TickEnv :=
  { ts := "2024-01-01T00:00:00", uuidIndexNow := [],
    mem_rows := [("100", "GPU-aaa", "4096"), ("100", "GPU-bbb", "2048")],
    pmon_out := [], cmdOf := fun _ => "" }

/-- A tick during which the driver reports uuid `GPU-aaa` at index
`"1"`, while the startup query had reported it at index `"0"`. -/
def c2Tick : TickEnv :=
  { ts := "2024-01-01T00:00:00", uuidIndexNow := [("GPU-aaa", "1")],
    mem_rows := [("100", "GPU-aaa", "4096")],
    pmon_out := [], cmdOf := fun _ => "" }

/-- A run whose startup uuid→index query returned `GPU-aaa ↦ "0"`. -/
def c2Run : RunEnv :=
  { startupUuidIndex := [("GPU-aaa", "0")], ticks := [c2Tick] }

/-- A tick whose snapshot line for pid 100 carries dash (malformed)
percentages. -/
def c5Env : TickEnv :=
  { ts := "2024-01-01T00:00:00", uuidIndexNow := [],
    mem_rows := [("100", "GPU-xxx", "4096")],
    pmon_out := ["0 100 C - - 0 0 python"], cmdOf := fun _ => "" }

/-- The row the sampler emits for `c5Env`. -/
def c5Row : OutRow :=
  { timestamp := "2024-01-01T00:00:00", gpu_index := "0", pid := 100, cmd := "python",
    gpu_mem_mib := "4096", sm_util_pct := "", mem_util_pct := "" }

/-- A tick whose memory row's uuid `GPU-u2` is not in the identity
mapping, while the snapshot hints device index `1` for its pid. -/
def c6Env : TickEnv :=
  { ts := "2024-01-01T00:00:00", uuidIndexNow := [],
    mem_rows := [("200", "GPU-u2", "2048")],
    pmon_out := ["1 200 C 80 60 0 0 x"], cmdOf := fun _ => "" }

/-- The row the sampler emits for `c6Env` under mapping
`[("GPU-u1", "0")]`. -/
def c6Row : OutRow :=
  { timestamp := "2024-01-01T00:00:00", gpu_index := "1", pid := 200, cmd := "x",
    gpu_mem_mib := "2048", sm_util_pct := "80", mem_util_pct := "60" }

/-! ## Helper lemmas -/

/-- The rich loader can only fail with the bad-timestamp error, never
the unrecognized-format one. -/
theorem load_rich_ne_unrecognized (file : List (List String)) (perGpu : Bool) :
    load_series_from_gpu_watch file perGpu ≠ .error .unrecognizedHeader := by
  unfold load_series_from_gpu_watch
  split
  · split <;> simp
  · simp

/-! ### C4 -/

/-- Claim C4, counterexample: with the append flag unset on a
pre-existing file (here one already holding a header row), the
previous contents are NOT replaced — the file is opened in append
mode, the old rows survive, and a second header row is appended, so
the file does not consist of exactly one header row as the claim
states. -/
theorem claim_C4_counterexample :
    initCsvFile (some [csvHeader, ["2024-01-01T00:00:00", "0", "1", "python", "4096", "80", "60"]]) false
      = [csvHeader, ["2024-01-01T00:00:00", "0", "1", "python", "4096", "80", "60"], csvHeader]
    ∧ (initCsvFile (some [csvHeader, ["2024-01-01T00:00:00", "0", "1", "python", "4096", "80", "60"]]) false).countP
        (fun r => r == csvHeader) = 2 :=
  ⟨rfl, rfl⟩

/-- Claim C4, amended: when the append flag is not set and the output
file pre-exists, the previous contents are preserved (the file is
opened in append mode, never truncated) and one new header row is
appended after them; when the append flag is set on a pre-existing
file, no header row is written and the existing rows are preserved
unchanged; a fresh file gets exactly the header row. -/
theorem claim_C4_amended (c : List (List String)) (b : Bool) :
    initCsvFile (some c) false = c ++ [csvHeader]
    ∧ initCsvFile (some c) true = c
    ∧ initCsvFile none b = [csvHeader] := by
  refine ⟨?_, ?_, ?_⟩ <;> simp [initCsvFile]

/-! ### C7 -/

/-- Claim C7: any CSV file whose first row is exactly the header the
Sampler writes is dispatched by `auto_loader` to the rich
(gpu_watch) schema loader, and such a file never produces the
unrecognized-format error. -/
theorem claim_C7 (rest : List (List String)) (perGpu : Bool) :
    auto_loader (csvHeader :: rest) perGpu = load_series_from_gpu_watch (csvHeader :: rest) perGpu
    ∧ auto_loader (csvHeader :: rest) perGpu ≠ .error .unrecognizedHeader := by
  have h1 : auto_loader (csvHeader :: rest) perGpu
      = load_series_from_gpu_watch (csvHeader :: rest) perGpu := rfl
  exact ⟨h1, by rw [h1]; exact load_rich_ne_unrecognized _ _⟩

theorem claim_C7_witness :
    auto_loader [csvHeader] false ≠ .error .unrecognizedHeader :=
  (claim_C7 [] false).2

/-! ### C10 -/

/-- Claim C10: on a completely empty CSV file (no rows at all, the
`StopIteration` branch), schema detection returns an empty `"Total"`
series instead of raising; the invocation then terminates through the
"no data to plot" diagnostic with exit code 1, and not through the
unrecognized-format error path. -/
theorem claim_C10 (perGpu plotCpu : Bool) :
    auto_loader ([] : List (List String)) perGpu = .ok ([("Total", [])], [], [])
    ∧ plotter_main [] perGpu plotCpu true = .noDataExit
    ∧ exitCodeOf (plotter_main [] perGpu plotCpu true) = some 1
    ∧ plotter_main [] perGpu plotCpu true ≠ .loadErrorExit .unrecognizedHeader := by
  have h0 : plotter_main [] perGpu plotCpu true = .noDataExit := rfl
  refine ⟨rfl, h0, rfl, by rw [h0]; simp⟩

theorem claim_C10_witness :
    plotter_main [] false false true = .noDataExit :=
  (claim_C10 false false).2.1

/-! ### C3 -/

/-- Claim C3, counterexample: a minimal-schema file whose system-memory
panel has a point but whose GPU panel has none still exits 1 with the
no-data diagnostic — so the Plotter does not fail "if and only if
there are zero plottable points across all panels": a non-GPU panel
with points does not make rendering proceed. -/
theorem claim_C3_counterexample :
    auto_loader c3File false = .ok ([("Total", [])], [("System", [(exT1, ⟨1024, 0⟩)])], [])
    ∧ plotter_main c3File false false true = .noDataExit
    ∧ exitCodeOf (plotter_main c3File false false true) = some 1 :=
  ⟨rfl, rfl, rfl⟩

/-- Claim C3, amended: with the rendering backend available, `do_plot`
fails with the "no data" exit (code 1) if and only if the GPU-memory
panel has zero points after aggregation; points in the system-memory
or CPU panels neither cause nor prevent the failure, and whenever the
GPU panel has at least one point, rendering proceeds. -/
theorem claim_C3_amended (g r c : SeriesMap) (plotCpu : Bool) :
    (do_plot g r c plotCpu true = .noDataExit ↔ anyGpuPoints g = false)
    ∧ (anyGpuPoints g = true → do_plot g r c plotCpu true = .rendered) := by
  unfold do_plot
  cases h : anyGpuPoints g <;> simp [h]

theorem claim_C3_amended_witness :
    do_plot [("Total", [(exT1, ⟨1, 0⟩)])] [] [] false true = .rendered :=
  (claim_C3_amended [("Total", [(exT1, ⟨1, 0⟩)])] [] [] false).2 (by decide)

/-! ### C2 -/

/-- Claim C2, counterexample: a run whose startup device query mapped
uuid `GPU-aaa` to index `"0"` emits gpu_index `"0"` during a tick in
which the driver would report that uuid at index `"1"` — the emitted
index reflects the startup mapping, not a mapping queried during the
same tick, refuting the per-tick-rebuild claim. -/
theorem claim_C2_counterexample :
    (runSampler none none c2Run).map (fun rows => rows.map (fun r => r.gpu_index)) = [["0"]]
    ∧ (c2Run.ticks.map (fun t => tickRows t.uuidIndexNow none none t)).map
        (fun rows => rows.map (fun r => r.gpu_index)) = [["1"]]
    ∧ runSampler none none c2Run
        ≠ c2Run.ticks.map (fun t => tickRows t.uuidIndexNow none none t) :=
  ⟨rfl, rfl, by decide⟩

/-- Claim C2, amended: the uuid→index identity mapping is queried once
at startup, before the sampling loop, and reused unchanged for every
tick: every tick's rows are computed from the startup mapping, and
changing what the per-tick device query would have returned changes
nothing in the output. -/
theorem claim_C2_amended (matcher : Option Matcher) (pid_target : Option Int) (env : RunEnv)
    (f : TickEnv → List (String × String)) :
    runSampler matcher pid_target env
      = env.ticks.map (tickRows env.startupUuidIndex matcher pid_target)
    ∧ runSampler matcher pid_target
        { startupUuidIndex := env.startupUuidIndex,
          ticks := env.ticks.map (fun t => { t with uuidIndexNow := f t }) }
      = runSampler matcher pid_target env := by
  refine ⟨rfl, ?_⟩
  unfold runSampler
  rw [List.map_map]
  apply List.map_congr_left
  intro t _
  show tickRows env.startupUuidIndex matcher pid_target { t with uuidIndexNow := f t }
      = tickRows env.startupUuidIndex matcher pid_target t
  cases t
  rfl

/-! ### C6 -/

/-- Claim C6: every row the tick emits for a memory-listing entry
resolves its gpu_index with the precedence the claim states: the
uuid→index mapping's value if the entry's device uuid is bound there;
otherwise the device-index hint of the utilization-snapshot entry for
that pid, if one exists; otherwise the empty string. -/
theorem claim_C6 (u : List (String × String)) (matcher : Option Matcher)
    (pid_target : Option Int) (env : TickEnv) (mr : String × String × String)
    (pid : Int) (row : OutRow)
    (hmr : mr ∈ env.mem_rows)
    (hpid : parsePyInt mr.1 = some pid)
    (hrow : emitOne u (pmon_by_pid (get_pmon_snapshot env.pmon_out)) matcher pid_target
        env.cmdOf env.ts mr = some row) :
    row ∈ tickRows u matcher pid_target env
    ∧ (∀ v, dictLast u mr.2.1 = some v → row.gpu_index = v)
    ∧ (dictLast u mr.2.1 = none →
        (∀ i, dictLast (pmon_by_pid (get_pmon_snapshot env.pmon_out)) pid = some i →
            row.gpu_index = i.gpu)
        ∧ (dictLast (pmon_by_pid (get_pmon_snapshot env.pmon_out)) pid = none →
            row.gpu_index = "")) := by
  refine ⟨List.mem_filterMap.mpr ⟨mr, hmr, hrow⟩, ?_⟩
  rw [emitOne, hpid] at hrow
  dsimp only at hrow
  by_cases hm : match_pid pid matcher pid_target env.cmdOf = true
  · rw [if_pos hm] at hrow
    injection hrow with hrow
    subst hrow
    refine ⟨?_, ?_⟩
    · intro v hv
      simp [hv]
    · intro hu
      constructor
      · intro i hi
        simp [hu, hi]
      · intro hi
        simp [hu, hi]
  · rw [if_neg hm] at hrow
    exact absurd hrow (by simp)

/-! ### C5 -/

/-- Claim C5: a memory-listing row whose pid has no
utilization-snapshot entry is still emitted (the tick is not aborted)
with empty-string `sm_util_pct` and `mem_util_pct` fields; and when a
snapshot entry exists but a percentage was malformed or non-numeric
(`parse_pct` returned `none`), the corresponding field is likewise
the empty string, not zero. -/
theorem claim_C5 (u : List (String × String)) (matcher : Option Matcher)
    (pid_target : Option Int) (env : TickEnv) (mr : String × String × String)
    (pid : Int) (row : OutRow)
    (hmr : mr ∈ env.mem_rows)
    (hpid : parsePyInt mr.1 = some pid)
    (hrow : emitOne u (pmon_by_pid (get_pmon_snapshot env.pmon_out)) matcher pid_target
        env.cmdOf env.ts mr = some row) :
    row ∈ tickRows u matcher pid_target env
    ∧ (dictLast (pmon_by_pid (get_pmon_snapshot env.pmon_out)) pid = none →
        row.sm_util_pct = "" ∧ row.mem_util_pct = "")
    ∧ (∀ i, dictLast (pmon_by_pid (get_pmon_snapshot env.pmon_out)) pid = some i →
        (i.sm = none → row.sm_util_pct = "")
        ∧ (i.mem = none → row.mem_util_pct = "")) := by
  refine ⟨List.mem_filterMap.mpr ⟨mr, hmr, hrow⟩, ?_⟩
  rw [emitOne, hpid] at hrow
  dsimp only at hrow
  by_cases hm : match_pid pid matcher pid_target env.cmdOf = true
  · rw [if_pos hm] at hrow
    injection hrow with hrow
    subst hrow
    constructor
    · intro hnone
      simp [hnone, optPctField]
    · intro i hi
      constructor
      · intro hsm
        simp [hi, hsm, optPctField]
      · intro hmem
        simp [hi, hmem, optPctField]
  · rw [if_neg hm] at hrow
    exact absurd hrow (by simp)

theorem claim_C5_witness :
    (("100", "GPU-xxx", "4096") ∈ c5Env.mem_rows ∧ parsePyInt "100" = some 100
      ∧ emitOne [] (pmon_by_pid (get_pmon_snapshot c5Env.pmon_out)) none none
          c5Env.cmdOf c5Env.ts ("100", "GPU-xxx", "4096") = some c5Row)
    ∧ c5Row ∈ tickRows [] none none c5Env
    ∧ c5Row.sm_util_pct = "" ∧ c5Row.mem_util_pct = "" :=
  ⟨⟨by decide, by decide, by decide⟩,
    (claim_C5 [] none none c5Env ("100", "GPU-xxx", "4096") 100 c5Row
      (by decide) (by decide) (by decide)).1,
    by decide, by decide⟩

theorem claim_C6_witness :
    (("200", "GPU-u2", "2048") ∈ c6Env.mem_rows ∧ parsePyInt "200" = some 200
      ∧ emitOne [("GPU-u1", "0")] (pmon_by_pid (get_pmon_snapshot c6Env.pmon_out)) none none
          c6Env.cmdOf c6Env.ts ("200", "GPU-u2", "2048") = some c6Row)
    ∧ c6Row ∈ tickRows [("GPU-u1", "0")] none none c6Env
    ∧ c6Row.gpu_index = "1" :=
  ⟨⟨by decide, by decide, by decide⟩,
    (claim_C6 [("GPU-u1", "0")] none none c6Env ("200", "GPU-u2", "2048") 200 c6Row
      (by decide) (by decide) (by decide)).1,
    by decide⟩

/-! ### C9 -/

/-- Behaviour of `lexAtoms` on a non-backslash head atom. -/
theorem lexAtoms_cons_ne (c : Char) (X : List Char) (hc : ¬ c = '\\') :
    lexAtoms (c :: X) = (lexAtoms X).map (c :: ·) := by
  rw [lexAtoms.eq_def]
  simp only []
  rw [if_neg hc]

/-- Behaviour of `lexAtoms` on an escaped atom. -/
theorem lexAtoms_cons_bs (d : Char) (X : List Char) :
    lexAtoms ('\\' :: d :: X) = (lexAtoms X).map (d :: ·) := rfl

/-- Interpreting the escaped pattern recovers exactly the original
character sequence. -/
theorem lexAtoms_escape (cs : List Char) :
    lexAtoms ((cs.map (fun c => if isRegexSpecial c then ['\\', c] else [c])).flatten)
      = some cs := by
  induction cs with
  | nil => rfl
  | cons c rest ih =>
    by_cases h : isRegexSpecial c = true
    · simp only [List.map_cons, List.flatten_cons, if_pos h, List.cons_append, List.nil_append]
      rw [lexAtoms_cons_bs, ih]
      rfl
    · have hc : ¬ (c = '\\') := by
        intro e
        subst e
        exact h (by decide)
      simp only [List.map_cons, List.flatten_cons, if_neg h, List.cons_append, List.nil_append]
      rw [lexAtoms_cons_ne c _ hc, ih]
      rfl

/-- Claim C9: when the filter string fails to compile as a regex (the
`re.error` branch, `compiles = false`), the matcher built from the
escaped pattern searches exactly by literal-substring containment, so
the construction succeeds (no startup failure in the model, which is
total) and any process whose command line contains the string
literally passes `match_pid`. -/
theorem claim_C9 (pat : String) (regexSem : String → Bool) :
    (∀ cmd : String, (buildMatcher pat false regexSem).search cmd
        = containsList pat.data cmd.data)
    ∧ ∀ (pid : Int) (cmdOf : Int → String),
        containsList pat.data (cmdOf pid).data = true →
        match_pid pid (some (buildMatcher pat false regexSem)) none cmdOf = true := by
  have hsearch : ∀ cmd : String, (buildMatcher pat false regexSem).search cmd
      = containsList pat.data cmd.data := by
    intro cmd
    show regexSearchLiteral (pyRegexEscape pat) cmd = _
    unfold regexSearchLiteral pyRegexEscape
    rw [show (⟨(pat.data.map (fun c => if isRegexSpecial c then ['\\', c] else [c])).flatten⟩ :
        String).data
      = (pat.data.map (fun c => if isRegexSpecial c then ['\\', c] else [c])).flatten from rfl]
    rw [lexAtoms_escape]
  refine ⟨hsearch, ?_⟩
  intro pid cmdOf h
  show (buildMatcher pat false regexSem).search (cmdOf pid) = true
  rw [hsearch]
  exact h

theorem claim_C9_witness :
    containsList "foo(".data "python foo(bar".data = true
    ∧ match_pid 42 (some (buildMatcher "foo(" false (fun _ => false))) none
        (fun _ => "python foo(bar") = true :=
  ⟨by decide,
    (claim_C9 "foo(" (fun _ => false)).2 42 (fun _ => "python foo(bar") (by decide)⟩

/-! ### C1 -/

/-- With no filter configured, the emitted rows with pid `p` are in
bijection with the memory-listing entries whose pid parses to `p`. -/
theorem tick_countP_aux (u : List (String × String)) (pm : List (Int × PmonInfo))
    (cmdOf : Int → String) (ts : String)
    (rows : List (String × String × String)) (p : Int) :
    ((rows.filterMap (emitOne u pm none none cmdOf ts)).countP (fun r => decide (r.pid = p)))
      = rows.countP (fun mr => decide (parsePyInt mr.1 = some p)) := by
  induction rows with
  | nil => rfl
  | cons mr rest ih =>
    rw [List.countP_cons]
    cases h : parsePyInt mr.1 with
    | none =>
      have he : emitOne u pm none none cmdOf ts mr = none := by
        rw [emitOne, h]
      rw [List.filterMap_cons, he, ih]
      simp [h]
    | some q =>
      have he : emitOne u pm none none cmdOf ts mr = some
          { timestamp := ts,
            gpu_index := match dictLast u mr.2.1 with
              | some v => v
              | none => match dictLast pm q with
                | some i => i.gpu
                | none => "",
            pid := q,
            cmd := if cmdOf q ≠ "" then cmdOf q else
              match dictLast pm q with
              | some i => i.cmd
              | none => "",
            gpu_mem_mib := mr.2.2,
            sm_util_pct := optPctField ((dictLast pm q).bind (fun i => i.sm)),
            mem_util_pct := optPctField ((dictLast pm q).bind (fun i => i.mem)) } := by
        rw [emitOne, h]
        rfl
      rw [List.filterMap_cons, he, List.countP_cons, ih]
      simp [h]

/-- Claim C1, counterexample: a tick whose authoritative memory listing
names pid 100 twice (one entry per device) emits two rows for pid 100
with no filter configured — not "exactly one emitted row" as the claim
states for every listed process id. -/
theorem claim_C1_counterexample :
    c1Env.mem_rows.countP (fun mr => decide (parsePyInt mr.1 = some 100)) = 2
    ∧ (tickRows [] none none c1Env).countP (fun r => decide (r.pid = 100)) = 2
    ∧ ¬ ((tickRows [] none none c1Env).countP (fun r => decide (r.pid = 100)) = 1) := by
  refine ⟨by decide, by decide, by decide⟩

/-- Claim C1, amended: with no filter configured, for every tick and
every process id `p`, the number of emitted rows with pid `p` equals
the number of memory-listing entries whose pid parses to `p` — so a
pid listed exactly once appears in exactly one row, and a pid present
only in the utilization snapshot (zero listing entries) never appears
in any emitted row. -/
theorem claim_C1_amended (u : List (String × String)) (env : TickEnv) (p : Int) :
    (tickRows u none none env).countP (fun r => decide (r.pid = p))
      = env.mem_rows.countP (fun mr => decide (parsePyInt mr.1 = some p)) :=
  tick_countP_aux u (pmon_by_pid (get_pmon_snapshot env.pmon_out)) env.cmdOf env.ts
    env.mem_rows p

/-! ### C8 — aggregation lemmas -/

/-- Adding on the left of `pyZero` is the identity. -/
theorem pyZero_add (a : PyFloat) : pyZero + a = a := by
  show PyFloat.add pyZero a = a
  unfold PyFloat.add pyZero
  simp

/-- How one `d[k] += v` step changes a lookup. -/
theorem alistFind_bump (k : String) (v : PyFloat) (l : List (String × PyFloat)) (k' : String) :
    alistFind (bump k v l) k' = if k' = k then optAdd (alistFind l k) v else alistFind l k' := by
  induction l with
  | nil =>
    by_cases h : k' = k
    · subst h
      simp [bump, alistFind, optAdd]
    · simp [bump, alistFind, h, Ne.symm h]
  | cons p t ih =>
    obtain ⟨a, b⟩ := p
    by_cases h1 : a = k
    · subst h1
      by_cases h2 : k' = a
      · subst h2
        simp [bump, alistFind, optAdd]
      · simp [bump, alistFind, h2, Ne.symm h2]
    · by_cases h2 : k' = a
      · subst h2
        simp [bump, alistFind, h1, Ne.symm h1]
      · have ih2 := ih
        simp only [alistFind] at ih2
        simp [bump, alistFind, h1, Ne.symm h1, h2, Ne.symm h2, ih2]

/-- Folding `bump` over contributions, viewed through one lookup key:
an option-valued running sum over the matching contributions. -/
theorem foldl_bump_find (pairs : List (String × PyFloat)) (acc : List (String × PyFloat))
    (ts : String) :
    alistFind (pairs.foldl (fun a c => bump c.1 c.2 a) acc) ts
      = (pairs.filter (fun c => c.1 == ts)).foldl (fun v c => optAdd v c.2) (alistFind acc ts) := by
  induction pairs generalizing acc with
  | nil => rfl
  | cons c rest ih =>
    rw [List.foldl_cons, List.filter_cons, ih]
    by_cases h : c.1 = ts
    · simp [alistFind_bump, h]
    · simp [alistFind_bump, h, Ne.symm h]

/-- A running option-sum started at a value is a plain sum. -/
theorem foldl_optAdd_some (vs : List PyFloat) (a : PyFloat) :
    vs.foldl optAdd (some a) = some (vs.foldl (· + ·) a) := by
  induction vs generalizing a with
  | nil => rfl
  | cons v rest ih =>
    rw [List.foldl_cons, List.foldl_cons]
    show rest.foldl optAdd (some (a + v)) = _
    exact ih (a + v)

/-- A running option-sum over pair values, started empty, is the
`pySum` of the values when there is at least one. -/
theorem foldl_optAdd_none_eq_pySum (l : List (String × PyFloat)) (h : l ≠ []) :
    l.foldl (fun v c => optAdd v c.2) none = some (pySum (l.map (fun c => c.2))) := by
  cases l with
  | nil => exact absurd rfl h
  | cons c rest =>
    rw [List.foldl_cons]
    show rest.foldl (fun v c => optAdd v c.2) (some c.2) = _
    have h1 : rest.foldl (fun v c => optAdd v c.2) (some c.2)
        = (rest.map (fun c => c.2)).foldl optAdd (some c.2) := by
      rw [List.foldl_map]
    rw [h1, foldl_optAdd_some]
    rw [List.map_cons]
    show _ = some (pySum (c.2 :: rest.map (fun c => c.2)))
    rw [pySum, List.foldl_cons, pyZero_add]

/-- The reading loop's `by_ts_total`, as a fold of `bump` over the
surviving contributions (first component of the pair accumulator). -/
theorem richAccum_fold_fst (hdr : List String) (rows : List (List String))
    (acc : List (String × PyFloat) × List (String × List (String × PyFloat))) :
    (rows.foldl (fun acc row =>
        match richContrib hdr row with
        | none => acc
        | some (ts, v, gpu) =>
          (bump ts v acc.1, if gpu = "" then acc.2 else bumpNested ts gpu v acc.2)) acc).1
      = (rows.filterMap (richContrib hdr)).foldl (fun a c => bump c.1 c.2.1 a) acc.1 := by
  induction rows generalizing acc with
  | nil => rfl
  | cons row rest ih =>
    rw [List.foldl_cons, List.filterMap_cons]
    cases h : richContrib hdr row with
    | none =>
      simp only [h]
      exact ih acc
    | some c =>
      obtain ⟨ts, v, gpu⟩ := c
      simp only [h]
      exact ih _

/-- Same, for `by_ts_gpu` (second component). -/
theorem richAccum_fold_snd (hdr : List String) (rows : List (List String))
    (acc : List (String × PyFloat) × List (String × List (String × PyFloat))) :
    (rows.foldl (fun acc row =>
        match richContrib hdr row with
        | none => acc
        | some (ts, v, gpu) =>
          (bump ts v acc.1, if gpu = "" then acc.2 else bumpNested ts gpu v acc.2)) acc).2
      = (rows.filterMap (richContrib hdr)).foldl
          (fun a c => if c.2.2 = "" then a else bumpNested c.1 c.2.2 c.2.1 a) acc.2 := by
  induction rows generalizing acc with
  | nil => rfl
  | cons row rest ih =>
    rw [List.foldl_cons, List.filterMap_cons]
    cases h : richContrib hdr row with
    | none =>
      simp only [h]
      exact ih acc
    | some c =>
      obtain ⟨ts, v, gpu⟩ := c
      simp only [h]
      exact ih _

/-- Dict `by_ts_total` is the `bump`-fold of the surviving contributions. -/
theorem richAccum_fst (file : List (List String)) :
    (richAccum file).1 = (richRowsOf file).foldl (fun a c => bump c.1 c.2.1 a) [] :=
  richAccum_fold_fst (file.headD []) file.tail ([], [])

/-- Dict `by_ts_gpu` is the `bumpNested`-fold of the surviving
contributions with a nonempty device label. -/
theorem richAccum_snd (file : List (List String)) :
    (richAccum file).2 = (richRowsOf file).foldl
        (fun a c => if c.2.2 = "" then a else bumpNested c.1 c.2.2 c.2.1 a) [] :=
  richAccum_fold_snd (file.headD []) file.tail ([], [])

/-- Grouping and summing, `"Total"` side: the accumulated value at a
timestamp key is the sum of the `gpu_mem_mib` values of exactly the
surviving rows carrying that exact timestamp string. -/
theorem total_sum (file : List (List String)) (ts : String)
    (h : (richRowsOf file).filter (fun c => c.1 == ts) ≠ []) :
    alistFind (richAccum file).1 ts
      = some (pySum (((richRowsOf file).filter (fun c => c.1 == ts)).map (fun c => c.2.1))) := by
  rw [richAccum_fst]
  have h1 : (richRowsOf file).foldl (fun a c => bump c.1 c.2.1 a) []
      = ((richRowsOf file).map (fun c => (c.1, c.2.1))).foldl (fun a c => bump c.1 c.2 a) [] := by
    rw [List.foldl_map]
  rw [h1, foldl_bump_find]
  have h2 : (List.filter (fun c => c.1 == ts)
        ((richRowsOf file).map (fun c => (c.1, c.2.1))))
      = ((richRowsOf file).filter (fun c => c.1 == ts)).map (fun c => (c.1, c.2.1)) := by
    rw [List.filter_map]
    rfl
  rw [h2]
  have h3 : ((richRowsOf file).filter (fun c => c.1 == ts)).map (fun c => (c.1, c.2.1)) ≠ [] := by
    simpa using h
  show (((richRowsOf file).filter (fun c => c.1 == ts)).map
      (fun c => (c.1, c.2.1))).foldl (fun v c => optAdd v c.2) none = _
  rw [foldl_optAdd_none_eq_pySum _ h3, List.map_map]
  rfl

/-- Lookup skips a nested binding with a different timestamp key. -/
theorem alistFind2_cons_ne (a : String) (inner : List (String × PyFloat))
    (t : List (String × List (String × PyFloat))) (ts g : String) (h : ¬ ts = a) :
    alistFind2 ((a, inner) :: t) ts g = alistFind2 t ts g := by
  simp [alistFind2, alistFind, Ne.symm h]

/-- Lookup hits a nested binding with the same timestamp key. -/
theorem alistFind2_cons_eq (a : String) (inner : List (String × PyFloat))
    (t : List (String × List (String × PyFloat))) (g : String) :
    alistFind2 ((a, inner) :: t) a g = alistFind inner g := by
  simp [alistFind2, alistFind]

/-- How one `d[ts][gpu] += v` step changes a nested lookup. -/
theorem alistFind2_bumpNested (ts g : String) (v : PyFloat)
    (m : List (String × List (String × PyFloat))) (ts' g' : String) :
    alistFind2 (bumpNested ts g v m) ts' g'
      = if ts' = ts ∧ g' = g then optAdd (alistFind2 m ts g) v else alistFind2 m ts' g' := by
  induction m with
  | nil =>
    by_cases h1 : ts' = ts
    · subst h1
      by_cases h2 : g' = g
      · subst h2
        simp [bumpNested, alistFind2, alistFind, optAdd]
      · simp [bumpNested, alistFind2, alistFind, h2, Ne.symm h2]
    · simp [bumpNested, alistFind2, alistFind, h1, Ne.symm h1]
  | cons p t ih =>
    obtain ⟨a, inner⟩ := p
    by_cases h1 : a = ts
    · subst h1
      have hb : bumpNested a g v ((a, inner) :: t) = (a, bump g v inner) :: t := by
        simp [bumpNested]
      rw [hb]
      by_cases h2 : ts' = a
      · subst h2
        rw [alistFind2_cons_eq, alistFind_bump]
        by_cases h3 : g' = g
        · simp [h3, alistFind2_cons_eq]
        · simp [h3, alistFind2_cons_eq]
      · rw [alistFind2_cons_ne _ _ _ _ _ h2]
        have hne : ¬ (ts' = a ∧ g' = g) := fun hc => h2 (And.left hc)
        rw [if_neg hne, alistFind2_cons_ne _ _ _ _ _ h2]
    · have hb : bumpNested ts g v ((a, inner) :: t) = (a, inner) :: bumpNested ts g v t := by
        simp [bumpNested, h1]
      rw [hb]
      by_cases h2 : ts' = a
      · subst h2
        rw [alistFind2_cons_eq]
        have hne : ¬ (ts' = ts ∧ g' = g) := fun hc => h1 (And.left hc)
        rw [if_neg hne, alistFind2_cons_eq]
      · rw [alistFind2_cons_ne _ _ _ _ _ h2, alistFind2_cons_ne _ _ _ _ _ h2, ih,
          alistFind2_cons_ne _ _ _ _ _ (Ne.symm h1)]

/-- Folding the per-device accumulation, viewed through one
`(timestamp, device)` lookup: an option-valued running sum over the
matching contributions (for a nonempty device label). -/
theorem foldl_bumpNested_find (pairs : List (String × PyFloat × String))
    (acc : List (String × List (String × PyFloat))) (ts g : String) (hg : ¬ g = "") :
    alistFind2 (pairs.foldl
        (fun a c => if c.2.2 = "" then a else bumpNested c.1 c.2.2 c.2.1 a) acc) ts g
      = (pairs.filter (fun c => c.1 == ts && c.2.2 == g)).foldl
          (fun v c => optAdd v c.2.1) (alistFind2 acc ts g) := by
  induction pairs generalizing acc with
  | nil => rfl
  | cons c rest ih =>
    rw [List.foldl_cons, List.filter_cons, ih]
    by_cases hc : c.2.2 = ""
    · have hfilter : (c.1 == ts && c.2.2 == g) = false := by
        have h2 : (c.2.2 == g) = false := by
          rw [hc]
          exact beq_eq_false_iff_ne.mpr (fun e => hg e.symm)
        rw [h2, Bool.and_false]
      rw [if_pos hc, hfilter, if_neg Bool.false_ne_true]
    · rw [if_neg hc, alistFind2_bumpNested]
      by_cases h1 : ts = c.1 ∧ g = c.2.2
      · rw [if_pos h1]
        have hcond : (c.1 == ts && c.2.2 == g) = true := by
          have e1 : (c.1 == ts) = true := beq_iff_eq.mpr h1.1.symm
          have e2 : (c.2.2 == g) = true := beq_iff_eq.mpr h1.2.symm
          rw [e1, e2, Bool.and_true]
        rw [hcond, if_pos rfl, List.foldl_cons, h1.1, h1.2]
      · rw [if_neg h1]
        have hcond : (c.1 == ts && c.2.2 == g) = false := by
          by_cases ha : c.1 = ts
          · have hb : ¬ g = c.2.2 := fun hb => h1 ⟨ha.symm, hb⟩
            have e2 : (c.2.2 == g) = false :=
              beq_eq_false_iff_ne.mpr (fun e => hb e.symm)
            rw [e2, Bool.and_false]
          · have e1 : (c.1 == ts) = false := beq_eq_false_iff_ne.mpr ha
            rw [e1, Bool.false_and]
        rw [hcond, if_neg Bool.false_ne_true]

/-- Grouping and summing, per-device side: the accumulated value at a
`(timestamp, device)` key is the sum of the `gpu_mem_mib` values of
exactly the surviving rows carrying that timestamp string and that
(nonempty) stripped device label. -/
theorem gpu_sum (file : List (List String)) (ts g : String) (hg : ¬ g = "")
    (h : (richRowsOf file).filter (fun c => c.1 == ts && c.2.2 == g) ≠ []) :
    alistFind2 (richAccum file).2 ts g
      = some (pySum (((richRowsOf file).filter (fun c => c.1 == ts && c.2.2 == g)).map
          (fun c => c.2.1))) := by
  rw [richAccum_snd, foldl_bumpNested_find _ _ _ _ hg]
  have h1 : ((richRowsOf file).filter (fun c => c.1 == ts && c.2.2 == g)).foldl
        (fun v c => optAdd v c.2.1) (alistFind2 [] ts g)
      = (((richRowsOf file).filter (fun c => c.1 == ts && c.2.2 == g)).map
          (fun c => (c.1, c.2.1))).foldl (fun v c => optAdd v c.2) none := by
    rw [List.foldl_map]
    rfl
  rw [h1, foldl_optAdd_none_eq_pySum _ (by simpa using h), List.map_map]
  rfl

/-- Points built over the sorted timestamp keys are in nondecreasing
parsed-time order. -/
theorem pairwise_points (times : List String) (f : String → PyFloat) :
    List.Pairwise (fun p q => pdtKey p.1 ≤ pdtKey q.1)
      ((sortTimes times).map (fun ts => (pdtOf ts, f ts))) := by
  have hs : List.Sorted timeLe (sortTimes times) := List.sorted_insertionSort timeLe times
  exact List.Pairwise.map _ (fun a b hab => hab) hs

/-- Every GPU-panel series a successful rich-schema load produces is
sorted by parsed time. -/
theorem load_sorted (file : List (List String)) (perGpu : Bool)
    (out : SeriesMap × SeriesMap × SeriesMap)
    (hout : load_series_from_gpu_watch file perGpu = .ok out) :
    ∀ s ∈ out.1, List.Pairwise (fun p q => pdtKey p.1 ≤ pdtKey q.1) s.2 := by
  unfold load_series_from_gpu_watch at hout
  by_cases hall : ((richTimes file).all fun ts => (parse_time ts).isSome) = true
  · rw [if_pos hall] at hout
    cases perGpu with
    | false =>
      rw [if_neg Bool.false_ne_true] at hout
      injection hout with h
      subst h
      intro s hs
      rw [List.mem_singleton] at hs
      subst hs
      exact pairwise_points (richTimes file) _
    | true =>
      rw [if_pos rfl] at hout
      injection hout with h
      subst h
      intro s hs
      obtain ⟨g, _, rfl⟩ := List.mem_map.mp hs
      exact pairwise_points (richTimes file) _
  · rw [if_neg hall] at hout
    cases hout

/-- Claim C8: rich-schema aggregation groups rows by the exact
timestamp string and sums `gpu_mem_mib`: the scenario file yields
`Total = [(t1, 6144)]` without per-device split and `GPU gpu0 =
[(t1, 4096)]`, `GPU gpu1 = [(t1, 2048)]` with it; in general the
accumulated total at a timestamp key is the sum over exactly the
surviving rows with that exact timestamp string, the per-device value
at a `(timestamp, device)` key is the sum over exactly the rows with
that timestamp and that device label, and every series a successful
load emits has its points in nondecreasing parsed-time order. -/
theorem claim_C8 :
    (load_series_from_gpu_watch exRichFile false
        = .ok ([("Total", [(exT1, ⟨6144, 0⟩)])], [], []))
    ∧ (load_series_from_gpu_watch exRichFile true
        = .ok ([("GPU gpu0", [(exT1, ⟨4096, 0⟩)]), ("GPU gpu1", [(exT1, ⟨2048, 0⟩)])], [], []))
    ∧ (∀ (file : List (List String)) (ts : String),
        (richRowsOf file).filter (fun c => c.1 == ts) ≠ [] →
        alistFind (richAccum file).1 ts
          = some (pySum (((richRowsOf file).filter (fun c => c.1 == ts)).map (fun c => c.2.1))))
    ∧ (∀ (file : List (List String)) (ts g : String), ¬ g = "" →
        (richRowsOf file).filter (fun c => c.1 == ts && c.2.2 == g) ≠ [] →
        alistFind2 (richAccum file).2 ts g
          = some (pySum (((richRowsOf file).filter (fun c => c.1 == ts && c.2.2 == g)).map
              (fun c => c.2.1))))
    ∧ (∀ (file : List (List String)) (perGpu : Bool)
          (out : SeriesMap × SeriesMap × SeriesMap),
        load_series_from_gpu_watch file perGpu = .ok out →
        ∀ s ∈ out.1, List.Pairwise (fun p q => pdtKey p.1 ≤ pdtKey q.1) s.2) :=
  ⟨rfl, rfl, total_sum, gpu_sum, load_sorted⟩

theorem claim_C8_witness :
    ((richRowsOf exRichFile).filter (fun c => c.1 == "2024-01-01T00:00:00") ≠ []
      ∧ alistFind (richAccum exRichFile).1 "2024-01-01T00:00:00"
          = some (pySum (((richRowsOf exRichFile).filter
              (fun c => c.1 == "2024-01-01T00:00:00")).map (fun c => c.2.1))))
    ∧ alistFind (richAccum exRichFile).1 "2024-01-01T00:00:00" = some ⟨6144, 0⟩ :=
  ⟨⟨by decide, claim_C8.2.2.1 exRichFile "2024-01-01T00:00:00" (by decide)⟩, by decide⟩
